import Mathlib

/-
Verification development for the OpenAPI v3 type-to-schema resolution engine
of BlackSheep 1.0.9 (blacksheep/server/openapi/v3.py).

The Python module is shallowly embedded as executable Lean definitions:

* Python types handled by the resolver become the inductive PyType.
  A dataclass is represented by a name (PyType.classRef) that is looked up
  in an environment Env mapping class names to their declared fields,
  evaluated type hints and generic type parameters.  The pydantic model
  handler (PydanticModelTypeHandler) is not modelled: no claim exercises it,
  and the dataclass handler is the one the claims touch.
* The handler state (OpenAPIHandler attributes components.schemas,
  objects references, explicitly assigned type schemas, the common
  responses and the flag that controls the automatic 404 response) becomes
  the structure St.  Python dictionaries become association lists: newest
  assignment first for the objects references (lookup takes the first
  match), insertion order with append for components.schemas (a fresh key
  is always appended).
* Exceptions become the error branch of the Res result type; the emission
  of warnings.warn becomes an entry appended to a warnings list in St.
* Recursive resolution is modelled with explicit fuel: every recursive
  function consumes one unit per call and returns Res.fuelOut when the
  fuel is exhausted.  A Python run that terminates corresponds to a result
  other than fuelOut for every sufficiently large fuel.
* Auxiliary data carriers that live in blacksheep/server/openapi/common.py
  (which is not part of the given sources) are modelled from the spec and
  from their use sites in v3.py; they are marked in their doc comments.
-/

namespace BS

/-- openapidocs.v3.ValueType (the subset used by v3.py). -/
inductive ValueType where
  | object
  | array
  | string
  | integer
  | number
  | boolean
deriving DecidableEq, Repr

/-- openapidocs.v3.ValueFormat (the subset used by v3.py). -/
inductive ValueFormat where
  | int64
  | float
  | uuid
  | date
  | datetime
  | binary
deriving DecidableEq, Repr

/-- openapidocs.v3.Reference: a named pointer into the component registry. -/
structure Reference where
  ref : String
deriving DecidableEq, Repr

/-- A value appearing in the enum list of a Schema. -/
inductive EnumVal where
  | i (n : Int)
  | s (v : String)
deriving DecidableEq, Repr

/-- openapidocs.v3.Schema, restricted to the fields v3.py reads or writes:
type, format, nullable, items, enum, required and properties.  The
positional arguments follow that order.  Python leaves every field at None
by default; assignments store a concrete value. -/
inductive Schema where
  | mk
    (type : Option ValueType)
    (format : Option ValueFormat)
    (nullable : Option Bool)
    (items : Option (Schema ⊕ Reference))
    (enumVals : Option (List EnumVal))
    (required : Option (List String))
    (properties : Option (List (String × (Schema ⊕ Reference))))

/-- Result of resolving a type: a Schema or a Reference, exactly the
Union[Schema, Reference] return type of get_schema_by_type. -/
abbrev SR := Schema ⊕ Reference

def Schema.nullable : Schema → Option Bool
  | .mk _ _ nb _ _ _ _ => nb

def Schema.required : Schema → Option (List String)
  | .mk _ _ _ _ _ req _ => req

def Schema.properties : Schema → Option (List (String × SR))
  | .mk _ _ _ _ _ _ props => props

/-- The Python statement schema.nullable = b. -/
def Schema.setNullable : Schema → Option Bool → Schema
  | .mk a b _ c d e f, nb => .mk a b nb c d e f

/-- Schema() with no arguments: the unconstrained empty schema. -/
def Schema.empty : Schema := .mk none none none none none none none

/-- Schema(type=t). -/
def Schema.ofType (t : ValueType) : Schema :=
  .mk (some t) none none none none none none

/-- Schema(type=t, format=f). -/
def Schema.ofTypeFormat (t : ValueType) (f : ValueFormat) : Schema :=
  .mk (some t) (some f) none none none none none

/-- The unparameterized iterable kinds list, set and tuple. -/
inductive IterKind where
  | list
  | set
  | tuple
deriving DecidableEq, Repr

/-- The origins accepted by the parameterized-iterable branch:
list, set, tuple and collections.abc.Sequence. -/
inductive IterOrigin where
  | list
  | set
  | tuple
  | sequence
deriving DecidableEq, Repr

/-- The Python type descriptions the resolver distinguishes.  classRef
names a class whose declaration lives in an Env; forwardRef is a bare
string annotation; genericAlias is a parametrized generic class such as
Box[Item]; union is a typing.Union alias (its origin is typing.Union);
iterAlias is a parametrized iterable alias such as List[str]. -/
inductive PyType where
  | str
  | int
  | float
  | bool
  | uuid
  | date
  | datetime
  | noneType
  | union (args : List PyType)
  | bareIter (k : IterKind)
  | iterAlias (k : IterOrigin) (args : List PyType)
  | classRef (name : String)
  | forwardRef (s : String)
  | genericAlias (origin : String) (args : List PyType)
  | typeVar (name : String)
  | intEnum (name : String) (vals : List Int)
  | strEnum (name : String) (vals : List String)
deriving Repr

mutual

/-- Structural equality of type descriptions, standing in for Python
equality of type objects (typing aliases compare by origin and args). -/
def PyType.beq : PyType → PyType → Bool
  | .str, .str => true
  | .int, .int => true
  | .float, .float => true
  | .bool, .bool => true
  | .uuid, .uuid => true
  | .date, .date => true
  | .datetime, .datetime => true
  | .noneType, .noneType => true
  | .union a, .union b => PyType.beqList a b
  | .bareIter a, .bareIter b => a == b
  | .iterAlias k1 a, .iterAlias k2 b => k1 == k2 && PyType.beqList a b
  | .classRef a, .classRef b => a == b
  | .forwardRef a, .forwardRef b => a == b
  | .genericAlias o1 a, .genericAlias o2 b => o1 == o2 && PyType.beqList a b
  | .typeVar a, .typeVar b => a == b
  | .intEnum n1 v1, .intEnum n2 v2 => n1 == n2 && v1 == v2
  | .strEnum n1 v1, .strEnum n2 v2 => n1 == n2 && v1 == v2
  | _, _ => false

def PyType.beqList : List PyType → List PyType → Bool
  | [], [] => true
  | a :: as, b :: bs => PyType.beq a b && PyType.beqList as bs
  | _, _ => false

end

instance : BEq PyType := ⟨PyType.beq⟩

/-- Keys of the objects references dictionary: both type objects and
type-name strings are used as keys in v3.py. -/
abbrev RKey := PyType ⊕ String

def beqRKey : RKey → RKey → Bool
  | Sum.inl a, Sum.inl b => PyType.beq a b
  | Sum.inr a, Sum.inr b => a == b
  | _, _ => false

/-- Association-list lookup with an explicit key comparison; the first
(most recent) match wins, mirroring that the newest dictionary assignment
is consed to the front of the list. -/
def lookupBy {κ α : Type} (beq : κ → κ → Bool) : List (κ × α) → κ → Option α
  | [], _ => none
  | (k, v) :: rest, key => if beq key k then some v else lookupBy beq rest key

/-- Python key membership for string-keyed dictionaries kept in insertion
order (components.schemas). -/
def containsKey {α : Type} : List (String × α) → String → Bool
  | [], _ => false
  | (k0, _) :: rest, k => k0 == k || containsKey rest k

/-- Python dictionary assignment d[k] = v for string-keyed dictionaries
kept in insertion order: overwrite in place, else append. -/
def setKey {α : Type} : List (String × α) → String → α → List (String × α)
  | [], k, v => [(k, v)]
  | (k0, v0) :: rest, k, v =>
    if k0 == k then (k0, v) :: rest else (k0, v0) :: setKey rest k v

/-- Python dict.update: apply every assignment of the update list in
order. -/
def updateKeys {α : Type} (base : List (String × α)) (upds : List (String × α)) :
    List (String × α) :=
  upds.foldl (fun acc kv => setKey acc kv.1 kv.2) base

/-- Example values carried by documentation examples; their structure is
irrelevant to the engine, so they are modelled as strings. -/
abbrev Val := String

/-- openapidocs.v3.Example (summary, description, value). -/
structure Example where
  summary : Option String
  description : Option String
  value : Option Val
deriving DecidableEq, Repr

/-- openapidocs.v3.MediaType.  The Python attribute example is named
example_ here because example is a Lean keyword. -/
structure MediaType where
  schema : Option SR
  example_ : Option Val
  examples : Option (List (String × Example))

/-- openapidocs.v3.Header (description, schema). -/
structure Header where
  description : Option String
  schema : Option SR

/-- openapidocs.v3.Response. -/
structure ResponseDoc where
  description : Option String
  content : Option (List (String × MediaType))
  headers : Option (List (String × Header))

/-- openapidocs.v3.ParameterLocation. -/
inductive ParameterLocation where
  | path
  | query
  | cookie
  | header
deriving DecidableEq, Repr

/-- openapidocs.v3.Parameter, restricted to the fields v3.py sets.  The
Python attribute example is named example_ here. -/
structure Parameter where
  name : String
  in_ : ParameterLocation
  required : Option Bool
  schema : Option SR
  description : Option String
  example_ : Option Val

/-- openapidocs.v3.RequestBody. -/
structure RequestBody where
  content : List (String × MediaType)
  required : Bool
  description : Option String

/-- A warnings.warn emission, recorded structurally: the generic alias
whose field is an unresolved forward reference, and the field name. -/
inductive Warn where
  | forwardRefInGeneric (alias_ : PyType) (fieldName : String)
deriving Repr

/-- Declaration-site data of a class: whether a dataclass (the
DataClassTypeHandler claims exactly the dataclasses), the declared fields
in order (dataclasses.fields, a field type may be a forward-reference
string), the fully evaluated annotations (typing.get_type_hints) and the
declared generic type parameters (the origin attribute parameters). -/
structure ClassDef where
  isDataclass : Bool
  fields : List (String × PyType)
  hints : List (String × PyType)
  params : List String

/-- The host type system: class name to declaration. -/
abbrev Env := List (String × ClassDef)

/-- A generic binding context Dict[TypeVar, Type], keyed by the type
variable name. -/
abbrev TArgs := List (String × PyType)

/-- Modelled from the spec: ParameterSource from the common module (not
part of the given sources), the location discriminant of a user-supplied
parameter override. -/
inductive ParamSource where
  | query
  | path
  | header
  | cookie
deriving DecidableEq, Repr

/-- Modelled from the spec: ParameterInfo from the common module (not part
of the given sources) — the per-parameter override data read by v3.py:
description, example, value type, required flag and source. -/
structure ParameterInfo where
  description : Option String
  example_ : Option Val
  valueType : Option PyType
  required : Option Bool
  source : Option ParamSource

/-- Modelled from the spec: RequestBodyInfo from the common module (not
part of the given sources) — description plus literal examples keyed by
name (a Python dictionary). -/
structure RequestBodyInfo where
  description : Option String
  examples : List (String × Val)

/-- Modelled from the spec: ResponseExample from the common module (not
part of the given sources) — a response example value with an optional
name, summary and description. -/
structure ResponseExample where
  value : Val
  name : Option String
  summary : Option String
  description : Option String
deriving DecidableEq, Repr

/-- An entry of ContentInfo.examples: either a ResponseExample or a bare
value (the more concise API supported by v3.py). -/
inductive ExItem where
  | rx (r : ResponseExample)
  | raw (v : Val)
deriving DecidableEq, Repr

/-- Modelled from the spec: ContentInfo from the common module (not part
of the given sources) — a documented content entry: type, examples and
content type. -/
structure ContentInfo where
  type : Option PyType
  examples : List ExItem
  contentType : String

/-- Modelled from the spec: HeaderInfo from the common module (not part of
the given sources). -/
structure HeaderInfo where
  description : Option String
  type : PyType

/-- Modelled from the spec: ResponseInfo from the common module (not part
of the given sources): description, headers and content list. -/
structure ResponseInfo where
  description : Option String
  headers : Option (List (String × HeaderInfo))
  content : Option (List ContentInfo)

/-- A value of the responses dictionary of EndpointDocs: either a
ResponseInfo or a bare description string. -/
inductive RespVal where
  | info (r : ResponseInfo)
  | text (s : String)

/-- Modelled from the spec: the slice of EndpointDocs (common module, not
part of the given sources) that v3.py reads in the functions under
verification: parameter overrides, the request body override and the
per-status response overrides.  Summary, description, tags, the
deprecation flag and the post-build hook are not modelled because no
claim mentions them. -/
structure EndpointDocs where
  parameters : Option (List (String × ParameterInfo))
  requestBody : Option RequestBodyInfo
  responses : Option (List (String × RespVal))

/-- The binding-kind discriminant of a binder (QueryBinder, RouteBinder,
HeaderBinder, CookieBinder, BodyBinder, or any other binder such as a
dependency-injected service). -/
inductive BinderKind where
  | query
  | route
  | header
  | cookie
  | body
  | other
deriving DecidableEq, Repr

/-- The interface of a binder as consumed by v3.py: parameter name,
expected type, required flag, whether the default is the empty sentinel,
and (for body binders) the content type. -/
structure Binder where
  kind : BinderKind
  parameterName : String
  expectedType : PyType
  required : Bool
  defaultIsEmpty : Bool
  contentType : String

/-- A request handler as consumed by v3.py: binders when the attribute is
present, the return type annotation (none models the missing attribute,
some none models an explicit None annotation), and the EndpointDocs
attached to the handler (get_handler_docs, modelled as a field). -/
structure Handler where
  binders : Option (List Binder)
  returnType : Option (Option PyType)
  docs : Option EndpointDocs

/-- The mutable state of one OpenAPIHandler instance during a
document-generation pass: the objects references dictionary (newest
assignment first), components.schemas (insertion order), the explicitly
assigned type schemas, the emitted warnings, the application-wide common
responses and the handle_optional_response_with_404 flag (an
APIDocsHandler attribute, modelled from the spec as a boolean option). -/
structure St where
  objectsReferences : List (RKey × Reference)
  componentsSchemas : List (String × Schema)
  typesSchemas : List (PyType × Schema)
  warnings : List Warn
  commonResponses : List (String × ResponseDoc)
  handleOptionalResponseWith404 : Bool

/-- The exceptions v3.py can raise in the verified paths.
attributeMissing stands for a Python AttributeError on paths that are
unreachable from the public entry points. -/
inductive Err where
  | unsupportedUnionType (t : PyType)
  | cannotGetTypeName (t : PyType)
  | duplicatedContentTypeDocs (contentType : String)
  | attributeMissing
deriving Repr

/-- The outcome of a fueled computation: out of fuel, a raised exception,
or a value. -/
inductive Res (α : Type) where
  | fuelOut
  | err (e : Err)
  | ok (a : α)

/-- The for loop of check_union: the first member of the union args that
is not NoneType. -/
def firstNonNone : List PyType → Option PyType
  | [] => none
  | a :: rest => if PyType.beq a PyType.noneType then firstNonNone rest else some a

/-- check_union (v3.py lines 76-86).  Only Union[None, T] — equivalent to
Optional[T] — is supported; a union whose args lack NoneType or have more
than two members raises UnsupportedUnionTypeException.  Falling out of the
member loop (a union of only NoneType, not constructible through typing)
reaches the final return (False, object_type). -/
def check_union : PyType → Except Err (Bool × PyType)
  | .union args =>
    if (args.contains PyType.noneType) = false ∨ 2 < args.length then
      .error (.unsupportedUnionType (.union args))
    else
      match firstNonNone args with
      | some t => .ok (true, t)
      | none => .ok (false, .union args)
  | t => .ok (false, t)

/-- The intrinsic name of an unparameterized iterable origin class. -/
def iterOriginName : IterOrigin → String
  | .list => "list"
  | .set => "set"
  | .tuple => "tuple"
  | .sequence => "Sequence"

mutual

/-- get_type_name (v3.py lines 303-314).  When a non-empty binding
context is given and the type is a bound type variable, the bound type is
named instead; a type with an intrinsic name yields that name; a generic
alias is named through get_type_name_for_generic; anything else raises
ValueError (modelled as Err.cannotGetTypeName).  A Union alias has no
intrinsic name and its origin (typing.Union) is unnameable, so naming it
raises.  The function is fueled because context substitution is not
structurally decreasing. -/
def get_type_name (fuel : Nat) (t : PyType) (ctx : Option TArgs) : Res String :=
  match fuel with
  | 0 => .fuelOut
  | fuel + 1 =>
    let t1 :=
      match ctx with
      | some (c :: cs) =>
        match t with
        | .typeVar n =>
          match ((c :: cs) : TArgs).lookup n with
          | some r => r
          | none => t
        | _ => t
      | _ => t
    match t1 with
    | .str => .ok "str"
    | .int => .ok "int"
    | .float => .ok "float"
    | .bool => .ok "bool"
    | .uuid => .ok "UUID"
    | .date => .ok "date"
    | .datetime => .ok "datetime"
    | .noneType => .ok "NoneType"
    | .bareIter .list => .ok "list"
    | .bareIter .set => .ok "set"
    | .bareIter .tuple => .ok "tuple"
    | .classRef n => .ok n
    | .typeVar n => .ok n
    | .intEnum n _ => .ok n
    | .strEnum n _ => .ok n
    | .genericAlias o args => get_type_name_for_generic fuel o args ctx
    | .iterAlias k args => get_type_name_for_generic fuel (iterOriginName k) args ctx
    | .forwardRef s => .err (.cannotGetTypeName (.forwardRef s))
    | .union args => .err (.cannotGetTypeName (.union args))

/-- get_type_name_for_generic (v3.py lines 282-301): the origin name,
then Of, then the argument names joined by And.  The origin is named with
no binding context; originName is that name, already computed (a class
origin is named by its intrinsic name, an iterable origin by
iterOriginName). -/
def get_type_name_for_generic (fuel : Nat) (originName : String)
    (args : List PyType) (ctx : Option TArgs) : Res String :=
  match fuel with
  | 0 => .fuelOut
  | fuel + 1 =>
    match get_type_name_join fuel args ctx with
    | .fuelOut => .fuelOut
    | .err e => .err e
    | .ok argsRepr => .ok (originName ++ "Of" ++ argsRepr)

/-- The And-join of the names of the generic arguments. -/
def get_type_name_join (fuel : Nat) (args : List PyType) (ctx : Option TArgs) :
    Res String :=
  match fuel with
  | 0 => .fuelOut
  | fuel + 1 =>
    match args with
    | [] => .ok ""
    | [a] => get_type_name fuel a ctx
    | a :: b :: rest =>
      match get_type_name fuel a ctx with
      | .fuelOut => .fuelOut
      | .err e => .err e
      | .ok s1 =>
        match get_type_name_join fuel (b :: rest) ctx with
        | .fuelOut => .fuelOut
        | .err e => .err e
        | .ok s2 => .ok (s1 ++ "And" ++ s2)

end

/-- The while loop of _register_schema: starting from counter 1, the
first name base ++ counter that is not yet a key.  The loop always finds
a free name within length-of-schemas attempts (at most that many
collisions are possible), so the fuel bound used by _register_schema is
exact. -/
def suffixSearch (schemas : List (String × Schema)) (base : String) :
    Nat → Nat → String
  | 0, counter => base ++ toString counter
  | fuel + 1, counter =>
    let name := base ++ toString counter
    if containsKey schemas name then suffixSearch schemas base fuel (counter + 1)
    else name

/-- _register_schema (v3.py lines 326-338): resolve a name collision by
appending the first free numeric suffix, store the schema under the final
name and return the Reference pointing at it. -/
def register_schema (st : St) (schema : Schema) (name : String) : Reference × St :=
  let schemas := st.componentsSchemas
  let finalName :=
    if containsKey schemas name then suffixSearch schemas name schemas.length 1
    else name
  (⟨"#/components/schemas/" ++ finalName⟩,
   { st with componentsSchemas := schemas ++ [(finalName, schema)] })

/-- _get_stored_reference (v3.py lines 405-419): look the type object up
in the objects references; on a miss, when a non-empty binding context is
supplied, compute the context-substituted type name and look that name
up. -/
def get_stored_reference (fuel : Nat) (st : St) (t : PyType) (targs : Option TArgs) :
    Res (Option Reference) :=
  match lookupBy beqRKey st.objectsReferences (Sum.inl t) with
  | some r => .ok (some r)
  | none =>
    match targs with
    | some (a :: rest) =>
      match get_type_name fuel t (some (a :: rest)) with
      | .fuelOut => .fuelOut
      | .err e => .err e
      | .ok typeName => .ok (lookupBy beqRKey st.objectsReferences (Sum.inr typeName))
    | _ => .ok none

/-- _handle_object_type (v3.py lines 385-403): name the type, register an
object schema carrying the collected required list (or None when empty)
and properties, and record the Reference under both the type object and
the type name. -/
def handle_object_type (fuel : Nat) (st : St) (t : PyType)
    (properties : List (String × SR)) (required : List String)
    (ctx : Option TArgs) : Res (SR × St) :=
  match get_type_name fuel t ctx with
  | .fuelOut => .fuelOut
  | .err e => .err e
  | .ok typeName =>
    let schema : Schema :=
      .mk (some .object) none none none none
        (if required.isEmpty then none else some required) (some properties)
    let pr := register_schema st schema typeName
    .ok (Sum.inr pr.1,
      { pr.2 with objectsReferences :=
          (Sum.inr typeName, pr.1) :: (Sum.inl t, pr.1) :: pr.2.objectsReferences })

/-- _handle_type_having_explicit_schema (v3.py lines 349-358): register
the schema explicitly assigned to the type (the guard of the caller makes
the lookup succeed; a miss is modelled as an unreachable AttributeError). -/
def handle_type_having_explicit_schema (fuel : Nat) (st : St) (t : PyType) :
    Res (SR × St) :=
  match lookupBy PyType.beq st.typesSchemas t with
  | none => .err .attributeMissing
  | some schema =>
    match get_type_name fuel t (some []) with
    | .fuelOut => .fuelOut
    | .err e => .err e
    | .ok typeName =>
      let pr := register_schema st schema typeName
      .ok (Sum.inr pr.1,
        { pr.2 with objectsReferences :=
            (Sum.inr typeName, pr.1) :: (Sum.inl t, pr.1) :: pr.2.objectsReferences })

/-- _can_handle_class_type (v3.py lines 340-347): an object type handler
claims the type (the dataclass handler claims exactly the dataclasses of
the environment) or an explicit schema was assigned to it. -/
def can_handle_class_type (env : Env) (st : St) (t : PyType) : Bool :=
  (match t with
   | .classRef n =>
     match env.lookup n with
     | some cls => cls.isDataclass
     | none => false
   | _ => false)
  || (lookupBy PyType.beq st.typesSchemas t).isSome

/-- get_fields (v3.py lines 520-525): the field list produced by the
first handler claiming the type; an unclaimed type yields the empty
list. -/
def get_fields (env : Env) (t : PyType) : List (String × PyType) :=
  match t with
  | .classRef n =>
    match env.lookup n with
    | some cls => if cls.isDataclass then cls.fields else []
    | none => []
  | _ => []

/-- typing.get_type_hints of a class: the fully evaluated annotations
recorded in its declaration. -/
def get_type_hints_of (env : Env) (t : PyType) : List (String × PyType) :=
  match t with
  | .classRef n =>
    match env.lookup n with
    | some cls => cls.hints
    | none => []
  | _ => []

/-- _try_get_schema_for_simple_type (v3.py lines 467-489). -/
def try_get_schema_for_simple_type : PyType → Option Schema
  | .str => some (Schema.ofType .string)
  | .int => some (Schema.ofTypeFormat .integer .int64)
  | .float => some (Schema.ofTypeFormat .number .float)
  | .bool => some (Schema.ofType .boolean)
  | .uuid => some (Schema.ofTypeFormat .string .uuid)
  | .date => some (Schema.ofTypeFormat .string .date)
  | .datetime => some (Schema.ofTypeFormat .string .datetime)
  | _ => none

/-- _try_get_schema_for_enum (v3.py lines 567-572): an IntEnum subclass
yields an integer schema listing the member values, any other Enum a
string schema listing the member values. -/
def try_get_schema_for_enum : PyType → Option Schema
  | .intEnum _ vals =>
    some (.mk (some .integer) none none none (some (vals.map EnumVal.i)) none none)
  | .strEnum _ vals =>
    some (.mk (some .string) none none none (some (vals.map EnumVal.s)) none none)
  | _ => none

mutual

/-- get_schema_by_type (v3.py lines 421-437).  The isinstance(object_type,
Schema) first branch is represented by the domain: only type descriptions
are resolved here (pydantic fields, the one source of Schema-valued field
types, are not modelled).  A cached reference short-circuits; otherwise
the optional wrapper is unwrapped and the inner resolver is consulted.
The final guard is transcribed exactly as written in the source:
the nullable assignment runs only when the result is a Schema and
is_optional is false, so it always writes False. -/
def get_schema_by_type (fuel : Nat) (env : Env) (st : St) (t : PyType)
    (targs : Option TArgs) : Res (SR × St) :=
  match fuel with
  | 0 => .fuelOut
  | fuel + 1 =>
    match get_stored_reference fuel st t targs with
    | .fuelOut => .fuelOut
    | .err e => .err e
    | .ok (some r) => .ok (Sum.inr r, st)
    | .ok none =>
      match check_union t with
      | .error e => .err e
      | .ok (isOptional, childType) =>
        match get_schema_by_type_inner fuel env st childType targs with
        | .fuelOut => .fuelOut
        | .err e => .err e
        | .ok (Sum.inr r, st1) => .ok (Sum.inr r, st1)
        | .ok (Sum.inl schema, st1) =>
          if isOptional = false then
            .ok (Sum.inl (schema.setNullable (some isOptional)), st1)
          else
            .ok (Sum.inl schema, st1)

/-- _get_schema_by_type (v3.py lines 439-465): stored reference, class
types, simple types, iterables, generic aliases, enumerations, and the
empty schema as the final fallback.  A Union alias reaching this point
would crash on origin.__parameters__ in Python; that branch is
unreachable from get_schema_by_type because check_union always unwraps
or raises first. -/
def get_schema_by_type_inner (fuel : Nat) (env : Env) (st : St) (t : PyType)
    (targs : Option TArgs) : Res (SR × St) :=
  match fuel with
  | 0 => .fuelOut
  | fuel + 1 =>
    match get_stored_reference fuel st t targs with
    | .fuelOut => .fuelOut
    | .err e => .err e
    | .ok (some r) => .ok (Sum.inr r, st)
    | .ok none =>
      if can_handle_class_type env st t then
        get_schema_for_class fuel env st t
      else
        match try_get_schema_for_simple_type t with
        | some s => .ok (Sum.inl s, st)
        | none =>
          match try_get_schema_for_iterable fuel env st t targs with
          | .fuelOut => .fuelOut
          | .err e => .err e
          | .ok (some s, st1) => .ok (Sum.inl s, st1)
          | .ok (none, st1) =>
            match t with
            | .genericAlias o args =>
              match try_get_schema_for_generic fuel env st1 (.genericAlias o args)
                  o args targs with
              | .fuelOut => .fuelOut
              | .err e => .err e
              | .ok (some sr, st2) => .ok (sr, st2)
              | .ok (none, st2) => .ok (Sum.inl Schema.empty, st2)
            | .union _ => .err .attributeMissing
            | _ =>
              match try_get_schema_for_enum t with
              | some s => .ok (Sum.inl s, st1)
              | none => .ok (Sum.inl Schema.empty, st1)

/-- _get_schema_for_class (v3.py lines 360-383): a type with an
explicitly assigned schema registers that schema; otherwise the field
loop collects the required names and properties and _handle_object_type
registers the object schema.  Registration happens only after every field
has been resolved.  The branch for a type that is neither explicit nor a
dataclass of the environment is unreachable (the caller guards with
_can_handle_class_type); it is modelled as an AttributeError. -/
def get_schema_for_class (fuel : Nat) (env : Env) (st : St) (t : PyType) :
    Res (SR × St) :=
  match fuel with
  | 0 => .fuelOut
  | fuel + 1 =>
    if (lookupBy PyType.beq st.typesSchemas t).isSome then
      handle_type_having_explicit_schema fuel st t
    else
      match resolve_class_fields fuel env st (get_type_hints_of env t)
          (get_fields env t) [] [] with
      | .fuelOut => .fuelOut
      | .err e => .err e
      | .ok ((required, properties), st1) =>
        handle_object_type fuel st1 t properties required none

/-- The field loop of _get_schema_for_class (v3.py lines 369-381): unwrap
the optional wrapper, append non-optional field names to required,
replace a forward-reference string with the evaluated annotation of the
enclosing class, and resolve the field type with no binding context. -/
def resolve_class_fields (fuel : Nat) (env : Env) (st : St)
    (hints : List (String × PyType)) (flds : List (String × PyType))
    (required : List String) (properties : List (String × SR)) :
    Res ((List String × List (String × SR)) × St) :=
  match fuel with
  | 0 => .fuelOut
  | fuel + 1 =>
    match flds with
    | [] => .ok ((required, properties), st)
    | (fieldName, fieldType) :: rest =>
      match check_union fieldType with
      | .error e => .err e
      | .ok (isOptional, childType0) =>
        let required1 := if isOptional = false then required ++ [fieldName] else required
        let childType :=
          match childType0 with
          | .forwardRef _ =>
            match hints.lookup fieldName with
            | some resolved => resolved
            | none => childType0
          | _ => childType0
        match get_schema_by_type fuel env st childType none with
        | .fuelOut => .fuelOut
        | .err e => .err e
        | .ok (sr, st1) =>
          resolve_class_fields fuel env st1 hints rest required1
            (properties ++ [(fieldName, sr)])

/-- _try_get_schema_for_iterable (v3.py lines 491-518): a bare list, set
or tuple yields array of string; a parametrized iterable alias resolves
its first argument (string when absent), substituted through a non-empty
binding context when the argument is a bound type variable; any other
type is not an iterable. -/
def try_get_schema_for_iterable (fuel : Nat) (env : Env) (st : St) (t : PyType)
    (ctx : Option TArgs) : Res (Option Schema × St) :=
  match t with
  | .bareIter _ =>
    .ok (some (.mk (some .array) none none (some (Sum.inl (Schema.ofType .string)))
      none none none), st)
  | .iterAlias _ args =>
    match fuel with
    | 0 => .fuelOut
    | fuel + 1 =>
      let itemType0 := args.headD PyType.str
      let itemType :=
        match ctx with
        | some (c :: cs) =>
          match itemType0 with
          | .typeVar n =>
            match ((c :: cs) : TArgs).lookup n with
            | some r => r
            | none => itemType0
          | _ => itemType0
        | _ => itemType0
      match get_schema_by_type fuel env st itemType ctx with
      | .fuelOut => .fuelOut
      | .err e => .err e
      | .ok (sr, st1) =>
        .ok (some (.mk (some .array) none none (some sr) none none none), st1)
  | _ => .ok (none, st)

/-- _try_get_schema_for_generic (v3.py lines 527-565): bind the origin
class type parameters positionally to the alias arguments, resolve each
origin field under that binding, and register the object schema under the
generic name.  A field whose declared type is a forward-reference string
aborts with a warning and no registration (the loop result none).  An
origin class missing from the environment would be an AttributeError on
origin.__parameters__ and is modelled as such. -/
def try_get_schema_for_generic (fuel : Nat) (env : Env) (st : St) (t : PyType)
    (origin : String) (args : List PyType) (ctx : Option TArgs) :
    Res (Option SR × St) :=
  match fuel with
  | 0 => .fuelOut
  | fuel + 1 =>
    match env.lookup origin with
    | none => .err .attributeMissing
    | some cls =>
      let typeArgs : TArgs := cls.params.zip args
      match resolve_generic_fields fuel env st t (get_fields env (.classRef origin))
          typeArgs [] [] with
      | .fuelOut => .fuelOut
      | .err e => .err e
      | .ok (none, st1) => .ok (none, st1)
      | .ok (some (required, properties), st1) =>
        match handle_object_type fuel st1 t properties required ctx with
        | .fuelOut => .fuelOut
        | .err e => .err e
        | .ok (sr, st2) => .ok (some sr, st2)

/-- The field loop of _try_get_schema_for_generic (v3.py lines 539-561):
unwrap the optional wrapper, append non-optional field names to required,
warn and abort on a forward-reference string, substitute a bound type
variable, and resolve the field type with the bindings as context. -/
def resolve_generic_fields (fuel : Nat) (env : Env) (st : St) (t : PyType)
    (flds : List (String × PyType)) (typeArgs : TArgs)
    (required : List String) (properties : List (String × SR)) :
    Res (Option (List String × List (String × SR)) × St) :=
  match fuel with
  | 0 => .fuelOut
  | fuel + 1 =>
    match flds with
    | [] => .ok (some (required, properties), st)
    | (fieldName, fieldType) :: rest =>
      match check_union fieldType with
      | .error e => .err e
      | .ok (isOptional, childType0) =>
        let required1 := if isOptional = false then required ++ [fieldName] else required
        match childType0 with
        | .forwardRef _ =>
          .ok (none,
            { st with warnings := st.warnings ++ [Warn.forwardRefInGeneric t fieldName] })
        | _ =>
          let childType :=
            match childType0 with
            | .typeVar n =>
              match typeArgs.lookup n with
              | some r => r
              | none => childType0
            | _ => childType0
          match get_schema_by_type fuel env st childType (some typeArgs) with
          | .fuelOut => .fuelOut
          | .err e => .err e
          | .ok (sr, st1) =>
            resolve_generic_fields fuel env st1 t rest typeArgs required1
              (properties ++ [(fieldName, sr)])

end

/-- register_schema_for_type (v3.py lines 316-324): return the cached
reference when present; otherwise resolve the type, and when resolution
produced a Schema register it under the type name and return the new
Reference, else return the Reference produced by resolution. -/
def register_schema_for_type (fuel : Nat) (env : Env) (st : St) (t : PyType) :
    Res (SR × St) :=
  match fuel with
  | 0 => .fuelOut
  | fuel + 1 =>
    match get_stored_reference fuel st t none with
    | .fuelOut => .fuelOut
    | .err e => .err e
    | .ok (some r) => .ok (Sum.inr r, st)
    | .ok none =>
      match get_schema_by_type fuel env st t none with
      | .fuelOut => .fuelOut
      | .err e => .err e
      | .ok (Sum.inr r, st1) => .ok (Sum.inr r, st1)
      | .ok (Sum.inl schema, st1) =>
        match get_type_name fuel t none with
        | .fuelOut => .fuelOut
        | .err e => .err e
        | .ok typeName =>
          let pr := register_schema st1 schema typeName
          .ok (Sum.inr pr.1, pr.2)

/-- _get_body_binder (v3.py lines 574-578): the first body binder. -/
def get_body_binder (binders : List Binder) : Option Binder :=
  binders.find? (fun b => b.kind == BinderKind.body)

/-- get_parameter_location_for_binder (v3.py lines 614-625). -/
def get_parameter_location_for_binder (b : Binder) : Option ParameterLocation :=
  match b.kind with
  | .route => some .path
  | .query => some .query
  | .cookie => some .cookie
  | .header => some .header
  | _ => none

/-- _parameter_source_to_openapi_obj (v3.py lines 627-630). -/
def parameter_source_to_openapi_obj : ParamSource → ParameterLocation
  | .query => .query
  | .path => .path
  | .header => .header
  | .cookie => .cookie

/-- get_request_body (v3.py lines 586-612): None without a binders
attribute or a body binder; otherwise a single-content-type body whose
media type carries the resolved expected type and, when the request body
override supplies a non-empty examples dictionary, those examples as a
named map (each value wrapped in Example). -/
def get_request_body (fuel : Nat) (env : Env) (st : St) (handler : Handler) :
    Res (Option RequestBody × St) :=
  match fuel with
  | 0 => .fuelOut
  | fuel + 1 =>
    match handler.binders with
    | none => .ok (none, st)
    | some binders =>
      match get_body_binder binders with
      | none => .ok (none, st)
      | some bodyBinder =>
        let bodyInfo := handler.docs.bind (fun d => d.requestBody)
        let bodyExamples : Option (List (String × Example)) :=
          match bodyInfo with
          | some bi =>
            if bi.examples.isEmpty then none
            else some (bi.examples.map (fun kv => (kv.1, Example.mk none none (some kv.2))))
          | none => none
        match get_schema_by_type fuel env st bodyBinder.expectedType none with
        | .fuelOut => .fuelOut
        | .err e => .err e
        | .ok (sr, st1) =>
          .ok (some (RequestBody.mk
                [(bodyBinder.contentType, MediaType.mk (some sr) none bodyExamples)]
                bodyBinder.required
                (bodyInfo.bind (fun bi => bi.description))), st1)

/-- The binder loop of get_parameters (v3.py lines 643-666): binders with
no documentable location are skipped; path parameters are always
required, the rest when the binder is required and has no default; the
parameters dictionary is keyed by parameter name. -/
def params_from_binders (fuel : Nat) (env : Env) (st : St) :
    List Binder → List (String × ParameterInfo) → List (String × Parameter) →
    Res (List (String × Parameter) × St)
  | [], _, acc => .ok (acc, st)
  | binder :: rest, pinfo, acc =>
    match get_parameter_location_for_binder binder with
    | none => params_from_binders fuel env st rest pinfo acc
    | some location =>
      let required :=
        if location = ParameterLocation.path then true
        else binder.required && binder.defaultIsEmpty
      let paramInfo := pinfo.lookup binder.parameterName
      match get_schema_by_type fuel env st binder.expectedType none with
      | .fuelOut => .fuelOut
      | .err e => .err e
      | .ok (sr, st1) =>
        let p := Parameter.mk binder.parameterName location
          (if required then some true else none)
          (some sr)
          (match paramInfo with
           | some pi => pi.description
           | none => some "")
          (paramInfo.bind (fun pi => pi.example_))
        params_from_binders fuel env st1 rest pinfo
          (setKey acc binder.parameterName p)

/-- The override loop of get_parameters (v3.py lines 668-681):
user-declared parameter overrides not matching any binder are emitted as
extra parameters. -/
def params_from_info (fuel : Nat) (env : Env) (st : St) :
    List (String × ParameterInfo) → List (String × Parameter) →
    Res (List (String × Parameter) × St)
  | [], acc => .ok (acc, st)
  | (key, pi) :: rest, acc =>
    if (lookupBy (fun a b => a == b) acc key).isSome then
      params_from_info fuel env st rest acc
    else
      match pi.valueType with
      | some vt =>
        match get_schema_by_type fuel env st vt none with
        | .fuelOut => .fuelOut
        | .err e => .err e
        | .ok (sr, st1) =>
          let p := Parameter.mk key
            (parameter_source_to_openapi_obj (pi.source.getD ParamSource.query))
            pi.required (some sr) pi.description pi.example_
          params_from_info fuel env st1 rest (acc ++ [(key, p)])
      | none =>
        let p := Parameter.mk key
          (parameter_source_to_openapi_obj (pi.source.getD ParamSource.query))
          pi.required none pi.description pi.example_
        params_from_info fuel env st rest (acc ++ [(key, p)])

/-- get_parameters (v3.py lines 632-683): None without a binders
attribute; otherwise the values of the parameters dictionary built from
the binders and then from the unmatched user overrides. -/
def get_parameters (fuel : Nat) (env : Env) (st : St) (handler : Handler) :
    Res (Option (List Parameter) × St) :=
  match fuel with
  | 0 => .fuelOut
  | fuel + 1 =>
    match handler.binders with
    | none => .ok (none, st)
    | some binders =>
      let parametersInfo := (handler.docs.bind (fun d => d.parameters)).getD []
      match params_from_binders fuel env st binders parametersInfo [] with
      | .fuelOut => .fuelOut
      | .err e => .err e
      | .ok (acc1, st1) =>
        match params_from_info fuel env st1 parametersInfo acc1 with
        | .fuelOut => .fuelOut
        | .err e => .err e
        | .ok (acc2, st2) => .ok (some (acc2.map Prod.snd), st2)

/-- Modelled from the spec: normalize_example comes from the common
module, which is not part of the given sources, and the spec does not
constrain it; it is modelled as the identity on example values. -/
def normalize_example (v : Val) : Val := v

/-- The enumeration loop of _get_media_type_from_content_doc (v3.py lines
702-714): wrap bare values in ResponseExample, auto-name unnamed examples
as example index, and key the Example objects by name. -/
def build_examples_doc : List ExItem → Nat → List (String × Example) →
    List (String × Example)
  | [], _, acc => acc
  | item :: rest, index, acc =>
    let rx :=
      match item with
      | .rx r => r
      | .raw v => ResponseExample.mk v none none none
    let name :=
      match rx.name with
      | some n => n
      | none => "example " ++ toString index
    build_examples_doc rest (index + 1)
      (setKey acc name (Example.mk rx.summary rx.description
        (some (normalize_example rx.value))))

/-- _get_media_type_from_content_doc (v3.py lines 685-717): resolve the
declared type when present; exactly one example is attached inline as the
single example, two or more become a named map with auto-named entries. -/
def get_media_type_from_content_doc (fuel : Nat) (env : Env) (st : St)
    (contentDoc : ContentInfo) : Res (MediaType × St) :=
  match fuel with
  | 0 => .fuelOut
  | fuel + 1 =>
    let schemaRes : Res (Option SR × St) :=
      match contentDoc.type with
      | some t =>
        match get_schema_by_type fuel env st t none with
        | .fuelOut => .fuelOut
        | .err e => .err e
        | .ok (sr, st1) => .ok (some sr, st1)
      | none => .ok (none, st)
    match schemaRes with
    | .fuelOut => .fuelOut
    | .err e => .err e
    | .ok (schemaOpt, st1) =>
      match contentDoc.examples with
      | [] => .ok (MediaType.mk schemaOpt none none, st1)
      | [single] =>
        let v :=
          match single with
          | .rx r => r.value
          | .raw v => v
        .ok (MediaType.mk schemaOpt (some (normalize_example v)) none, st1)
      | e1 :: e2 :: rest =>
        .ok (MediaType.mk schemaOpt none
          (some (build_examples_doc (e1 :: e2 :: rest) 0 [])), st1)

/-- The content loop of _get_content_from_response_info (v3.py lines
727-733): a repeated content type raises
DuplicatedContentTypeDocsException. -/
def content_loop (fuel : Nat) (env : Env) (st : St) :
    List ContentInfo → List (String × MediaType) →
    Res (List (String × MediaType) × St)
  | [], acc => .ok (acc, st)
  | c :: rest, acc =>
    if containsKey acc c.contentType then
      .err (.duplicatedContentTypeDocs c.contentType)
    else
      match get_media_type_from_content_doc fuel env st c with
      | .fuelOut => .fuelOut
      | .err e => .err e
      | .ok (mt, st1) => content_loop fuel env st1 rest (acc ++ [(c.contentType, mt)])

/-- _get_content_from_response_info (v3.py lines 719-735): None for a
missing or empty content list. -/
def get_content_from_response_info (fuel : Nat) (env : Env) (st : St) :
    Option (List ContentInfo) → Res (Option (List (String × MediaType)) × St)
  | none => .ok (none, st)
  | some [] => .ok (none, st)
  | some (c :: rest) =>
    match content_loop fuel env st (c :: rest) [] with
    | .fuelOut => .fuelOut
    | .err e => .err e
    | .ok (acc, st1) => .ok (some acc, st1)

/-- The header loop of _get_headers_from_response_info (v3.py lines
743-746). -/
def headers_loop (fuel : Nat) (env : Env) (st : St) :
    List (String × HeaderInfo) → List (String × Header) →
    Res (List (String × Header) × St)
  | [], acc => .ok (acc, st)
  | (key, hi) :: rest, acc =>
    match get_schema_by_type fuel env st hi.type none with
    | .fuelOut => .fuelOut
    | .err e => .err e
    | .ok (sr, st1) =>
      headers_loop fuel env st1 rest (acc ++ [(key, Header.mk hi.description (some sr))])

/-- _get_headers_from_response_info (v3.py lines 737-746). -/
def get_headers_from_response_info (fuel : Nat) (env : Env) (st : St) :
    Option (List (String × HeaderInfo)) → Res (Option (List (String × Header)) × St)
  | none => .ok (none, st)
  | some hs =>
    match headers_loop fuel env st hs [] with
    | .fuelOut => .fuelOut
    | .err e => .err e
    | .ok (acc, st1) => .ok (some acc, st1)

/-- Modelled from the spec: response_status_to_str from the common module
(not part of the given sources) converts a response status key to a
string; status keys are modelled as strings throughout, so it is the
identity. -/
def response_status_to_str (s : String) : String := s

/-- The conversion comprehension of get_responses (v3.py lines 789-802):
each ResponseInfo becomes a Response document with converted content and
headers, each bare string a Response document with that description. -/
def convert_responses (fuel : Nat) (env : Env) (st : St) :
    List (String × RespVal) → List (String × ResponseDoc) →
    Res (List (String × ResponseDoc) × St)
  | [], acc => .ok (acc, st)
  | (key, v) :: rest, acc =>
    match v with
    | .text s =>
      convert_responses fuel env st rest
        (setKey acc (response_status_to_str key) (ResponseDoc.mk (some s) none none))
    | .info ri =>
      match get_content_from_response_info fuel env st ri.content with
      | .fuelOut => .fuelOut
      | .err e => .err e
      | .ok (contentOpt, st1) =>
        match get_headers_from_response_info fuel env st1 ri.headers with
        | .fuelOut => .fuelOut
        | .err e => .err e
        | .ok (headersOpt, st2) =>
          convert_responses fuel env st2 rest
            (setKey acc (response_status_to_str key)
              (ResponseDoc.mk ri.description contentOpt headersOpt))

/-- get_responses (v3.py lines 748-803).  The common responses are always
the base; explicit per-status response documentation, when present and
non-empty, is converted and merged over them.  Otherwise the entries are
inferred from the return type annotation: a missing annotation yields the
common responses unchanged; an explicit None annotation yields a single
204 entry; any other annotation yields a 200 entry for the unwrapped type
plus, when the annotation is optional and the 404 option is enabled, a
404 entry. -/
def get_responses (fuel : Nat) (env : Env) (st : St) (handler : Handler) :
    Res (List (String × ResponseDoc) × St) :=
  match fuel with
  | 0 => .fuelOut
  | fuel + 1 =>
    let responses :=
      st.commonResponses.map (fun kv => (response_status_to_str kv.1, kv.2))
    match handler.docs.bind (fun d => d.responses) with
    | some (d :: ds) =>
      match convert_responses fuel env st (d :: ds) [] with
      | .fuelOut => .fuelOut
      | .err e => .err e
      | .ok (conv, st1) => .ok (updateKeys responses conv, st1)
    | _ =>
      match handler.returnType with
      | none => .ok (responses, st)
      | some rt =>
        let dataRes : Except Err (List (String × RespVal)) :=
          match rt with
          | none =>
            .ok [("204", RespVal.info (ResponseInfo.mk (some "Success response")
              none (some [])))]
          | some returnType =>
            match check_union returnType with
            | .error e => .error e
            | .ok (isOptional, childType) =>
              .ok ([("200", RespVal.info (ResponseInfo.mk (some "Success response")
                  none (some [ContentInfo.mk (some childType) [] "application/json"])))]
                ++ (if isOptional && st.handleOptionalResponseWith404 then
                      [("404", RespVal.info (ResponseInfo.mk (some "Object not found")
                        none none))]
                    else []))
        match dataRes with
        | .error e => .err e
        | .ok data1 =>
          match convert_responses fuel env st data1 [] with
          | .fuelOut => .fuelOut
          | .err e => .err e
          | .ok (conv, st1) => .ok (updateKeys responses conv, st1)

/-- A fresh handler state at the start of a generation pass: empty
registries, no warnings, no common responses, automatic 404 responses
enabled. -/
def st0 : St := ⟨[], [], [], [], [], true⟩

/-- The state component of a resolution outcome (st0 when the outcome is
not a value, used only on outcomes known to be values). -/
def stOf (r : Res (SR × St)) : St :=
  match r with
  | .ok (_, s) => s
  | _ => st0

/-- The schema-or-reference component of a resolution outcome. -/
def srOf (r : Res (SR × St)) : Option SR :=
  match r with
  | .ok (sr, _) => some sr
  | _ => none

/-- A string schema after passing through the outer resolver, which
assigns nullable = False to every non-optional Schema result. -/
def strSchemaNF : Schema := (Schema.ofType .string).setNullable (some false)

/-- An environment with one self-referential dataclass: Node has a single
field next declared with the forward-reference string Node, whose
evaluated annotation is the class Node itself. -/
def envNode : Env :=
  [("Node", ⟨true, [("next", .forwardRef "Node")], [("next", .classRef "Node")], []⟩)]

/-- An environment with one plain dataclass Foo with a single string
field. -/
def envFoo : Env :=
  [("Foo", ⟨true, [("a", .str)], [("a", .str)], []⟩)]

/-- The reference produced by registering Foo. -/
def refFoo : Reference := ⟨"#/components/schemas/Foo"⟩

/-- The object schema registered for Foo. -/
def fooSchema : Schema :=
  .mk (some .object) none none none none (some ["a"]) (some [("a", Sum.inl strSchemaNF)])

/-- The handler state after resolving Foo from the fresh state. -/
def stFoo : St :=
  ⟨[(Sum.inr "Foo", refFoo), (Sum.inl (.classRef "Foo"), refFoo)],
   [("Foo", fooSchema)], [], [], [], true⟩

/-- An environment with a generic dataclass Box over one type parameter T
and two plain dataclasses Item and Other. -/
def env7 : Env :=
  [("Box", ⟨true, [("item", .typeVar "T")], [("item", .typeVar "T")], ["T"]⟩),
   ("Item", ⟨true, [("name", .str)], [("name", .str)], []⟩),
   ("Other", ⟨true, [("id", .int)], [("id", .int)], []⟩)]

/-- The alias Box[Item]. -/
def boxItem : PyType := .genericAlias "Box" [.classRef "Item"]

/-- The alias Box[Other]. -/
def boxOther : PyType := .genericAlias "Box" [.classRef "Other"]

/-- Resolution of Box[Item] from the fresh state. -/
def run7a : Res (SR × St) := get_schema_by_type 20 env7 st0 boxItem none

/-- Resolution of Box[Other] from the state left by run7a. -/
def run7b : Res (SR × St) := get_schema_by_type 20 env7 (stOf run7a) boxOther none

/-- A generic dataclass whose field is declared with the
forward-reference string X. -/
def boxFCls : ClassDef :=
  ⟨true, [("item", .forwardRef "X")], [("item", .classRef "X")], ["T"]⟩

/-- An environment containing only the generic dataclass BoxF. -/
def envBoxFwd : Env := [("BoxF", boxFCls)]

/-- A handler annotated as returning None. -/
def h204 : Handler := ⟨none, some none, none⟩

/-- A handler annotated as returning Optional[str]. -/
def hOptText : Handler := ⟨none, some (some (.union [.str, .noneType])), none⟩

/-- A handler annotated as returning str. -/
def hText : Handler := ⟨none, some (some .str), none⟩

/-- A handler without a return annotation. -/
def hNoAnn : Handler := ⟨none, none, none⟩

/-- The 204 response document inferred for a None return annotation. -/
def respDoc204 : ResponseDoc := ⟨some "Success response", none, none⟩

/-- The 200 response document inferred for a str (or Optional[str])
return annotation. -/
def respDoc200Str : ResponseDoc :=
  ⟨some "Success response",
   some [("application/json", ⟨some (Sum.inl strSchemaNF), none, none⟩)], none⟩

/-- The automatically added 404 response document. -/
def respDoc404 : ResponseDoc := ⟨some "Object not found", none, none⟩

/-- A state carrying one application-wide common response. -/
def stCommon : St :=
  { st0 with commonResponses := [("500", ⟨some "Server error", none, none⟩)] }

/-- A body binder expecting a string payload. -/
def bodyBinder1 : Binder := ⟨.body, "data", .str, true, true, "application/json"⟩

/-- A handler with a body binder whose request-body documentation carries
exactly one literal example named sample. -/
def hBodySingle : Handler :=
  ⟨some [bodyBinder1], none, some ⟨none, some ⟨none, [("sample", "v1")]⟩, none⟩⟩

/-- A handler object with no binders attribute at all. -/
def hPlain : Handler := ⟨none, none, none⟩

/-- The optional wrapper Optional[Foo] around the dataclass Foo. -/
def optFoo : PyType := .union [.classRef "Foo", .noneType]

/-- The generic alias Ex[T] with its type variable still unbound, as it
appears when a generic is resolved inside a binding context. -/
def tEx : PyType := .genericAlias "Ex" [.typeVar "T"]

/-- The reference stored for the bound instantiation Ex[Foo]. -/
def refEx : Reference := ⟨"#/components/schemas/ExOfFoo"⟩

/-- A state whose objects references already hold the name ExOfFoo, as
left by a previous registration of the bound instantiation; the unbound
alias Ex[T] itself is not a key. -/
def stEx : St := ⟨[(Sum.inr "ExOfFoo", refEx)], [], [], [], [], true⟩

/-- The binding context mapping the type variable T to Foo. -/
def targsEx : Option TArgs := some [("T", .classRef "Foo")]

/-- Reflexivity of the element-wise list equality, given reflexivity of
the elements. -/
theorem beqList_of_elems : ∀ (l : List PyType),
    (∀ x, x ∈ l → PyType.beq x x = true) → PyType.beqList l l = true
  | [], _ => rfl
  | x :: xs, h => by
    show (PyType.beq x x && PyType.beqList xs xs) = true
    rw [h x (List.mem_cons_self x xs),
      beqList_of_elems xs (fun y hy => h y (List.mem_cons_of_mem x hy))]
    rfl

/-- Reflexivity of PyType.beq, by strong induction on the size of the
type description. -/
theorem beq_refl_bounded : ∀ (n : Nat) (t : PyType), sizeOf t ≤ n →
    PyType.beq t t = true := by
  intro n
  induction n with
  | zero =>
    intro t h
    exfalso
    cases t <;> simp_arith at h
  | succ m ih =>
    intro t ht
    cases t with
    | str => rfl
    | int => rfl
    | float => rfl
    | bool => rfl
    | uuid => rfl
    | date => rfl
    | datetime => rfl
    | noneType => rfl
    | union a =>
      show PyType.beqList a a = true
      refine beqList_of_elems a (fun x hx => ih x ?_)
      have h1 := List.sizeOf_lt_of_mem hx
      have h2 : sizeOf (PyType.union a) = 1 + sizeOf a := by simp_arith
      omega
    | bareIter k =>
      show (k == k) = true
      exact beq_self_eq_true k
    | iterAlias k a =>
      show (k == k && PyType.beqList a a) = true
      rw [beq_self_eq_true,
        beqList_of_elems a (fun x hx => ih x (by
          have h1 := List.sizeOf_lt_of_mem hx
          have h2 : sizeOf (PyType.iterAlias k a) = 1 + sizeOf k + sizeOf a := by
            simp_arith
          omega))]
      rfl
    | classRef nm =>
      show (nm == nm) = true
      exact beq_self_eq_true nm
    | forwardRef s =>
      show (s == s) = true
      exact beq_self_eq_true s
    | genericAlias o a =>
      show (o == o && PyType.beqList a a) = true
      rw [beq_self_eq_true,
        beqList_of_elems a (fun x hx => ih x (by
          have h1 := List.sizeOf_lt_of_mem hx
          have h2 : sizeOf (PyType.genericAlias o a) = 1 + sizeOf o + sizeOf a := by
            simp_arith
          omega))]
      rfl
    | typeVar nm =>
      show (nm == nm) = true
      exact beq_self_eq_true nm
    | intEnum nm v =>
      show (nm == nm && v == v) = true
      rw [beq_self_eq_true, beq_self_eq_true]
      rfl
    | strEnum nm v =>
      show (nm == nm && v == v) = true
      rw [beq_self_eq_true, beq_self_eq_true]
      rfl

theorem PyType.beq_refl (t : PyType) : PyType.beq t t = true :=
  beq_refl_bounded (sizeOf t) t (Nat.le_refl _)

/-- Naming a Union alias never succeeds: its origin typing.Union has no
intrinsic name, so get_type_name raises (or runs out of fuel). -/
theorem get_type_name_union (fuel : Nat) (ctx : Option TArgs) (args : List PyType) :
    get_type_name fuel (.union args) ctx = .fuelOut ∨
    get_type_name fuel (.union args) ctx = .err (.cannotGetTypeName (.union args)) := by
  cases fuel with
  | zero => exact Or.inl rfl
  | succ g =>
    right
    cases ctx with
    | none => rfl
    | some l =>
      cases l with
      | nil => rfl
      | cons a rest => rfl

theorem lookup_after_handle (t : PyType) (nm : String) (r : Reference)
    (rest : List (RKey × Reference)) (hbeq : PyType.beq t t = true) :
    lookupBy beqRKey ((Sum.inr nm, r) :: (Sum.inl t, r) :: rest) (Sum.inl t) = some r := by
  rw [lookupBy]
  rw [if_neg (by simp [beqRKey])]
  rw [lookupBy]
  rw [if_pos (by simp [beqRKey, hbeq])]

theorem handle_object_type_lookup (fuel : Nat) (st : St) (t : PyType)
    (props : List (String × SR)) (req : List String) (ctx : Option TArgs)
    (r : Reference) (st1 : St) (hbeq : PyType.beq t t = true)
    (h : handle_object_type fuel st t props req ctx = .ok (Sum.inr r, st1)) :
    lookupBy beqRKey st1.objectsReferences (Sum.inl t) = some r := by
  unfold handle_object_type at h
  cases hn : get_type_name fuel t ctx with
  | fuelOut => rw [hn] at h; cases h
  | err e => rw [hn] at h; cases h
  | ok typeName =>
    rw [hn] at h
    simp only [Res.ok.injEq, Prod.mk.injEq, Sum.inr.injEq] at h
    obtain ⟨hr, hst⟩ := h
    subst hst
    subst hr
    exact lookup_after_handle t typeName _ _ hbeq

theorem handle_explicit_lookup (fuel : Nat) (st : St) (t : PyType)
    (r : Reference) (st1 : St) (hbeq : PyType.beq t t = true)
    (h : handle_type_having_explicit_schema fuel st t = .ok (Sum.inr r, st1)) :
    lookupBy beqRKey st1.objectsReferences (Sum.inl t) = some r := by
  unfold handle_type_having_explicit_schema at h
  cases hts : lookupBy PyType.beq st.typesSchemas t with
  | none => rw [hts] at h; cases h
  | some schema =>
    rw [hts] at h
    cases hn : get_type_name fuel t (some []) with
    | fuelOut => rw [hn] at h; cases h
    | err e => rw [hn] at h; cases h
    | ok typeName =>
      rw [hn] at h
      simp only [Res.ok.injEq, Prod.mk.injEq, Sum.inr.injEq] at h
      obtain ⟨hr, hst⟩ := h
      subst hst
      subst hr
      exact lookup_after_handle t typeName _ _ hbeq

theorem get_schema_for_class_lookup (fuel : Nat) (env : Env) (st : St) (t : PyType)
    (r : Reference) (st1 : St) (hbeq : PyType.beq t t = true)
    (h : get_schema_for_class fuel env st t = .ok (Sum.inr r, st1)) :
    lookupBy beqRKey st1.objectsReferences (Sum.inl t) = some r := by
  cases fuel with
  | zero => rw [get_schema_for_class] at h; cases h
  | succ f =>
    rw [get_schema_for_class] at h
    by_cases hts : (lookupBy PyType.beq st.typesSchemas t).isSome
    · rw [if_pos hts] at h
      exact handle_explicit_lookup f st t r st1 hbeq h
    · rw [if_neg hts] at h
      cases hf : resolve_class_fields f env st (get_type_hints_of env t)
          (get_fields env t) [] [] with
      | fuelOut => rw [hf] at h; cases h
      | err e => rw [hf] at h; cases h
      | ok pr =>
        rw [hf] at h
        obtain ⟨⟨req, props⟩, stx⟩ := pr
        exact handle_object_type_lookup f stx t props req none r st1 hbeq h

/-- When the generic path produces a Reference, the alias object has been
recorded under that Reference in the objects references. -/
theorem try_generic_lookup (fuel : Nat) (env : Env) (st : St) (t : PyType) (o : String)
    (args : List PyType) (ctx : Option TArgs) (r : Reference) (st2 : St)
    (h : try_get_schema_for_generic fuel env st t o args ctx
      = .ok (some (Sum.inr r), st2)) :
    lookupBy beqRKey st2.objectsReferences (Sum.inl t) = some r := by
  cases fuel with
  | zero => rw [try_get_schema_for_generic] at h; cases h
  | succ g =>
    rw [try_get_schema_for_generic] at h
    cases he : env.lookup o with
    | none => simp only [he] at h; cases h
    | some cls =>
      simp only [he] at h
      cases hf : resolve_generic_fields g env st t (get_fields env (.classRef o))
          (cls.params.zip args) [] [] with
      | fuelOut => simp only [hf] at h; cases h
      | err e => simp only [hf] at h; cases h
      | ok p =>
        obtain ⟨ro, stx⟩ := p
        cases ro with
        | none => simp only [hf] at h; simp at h
        | some rp =>
          obtain ⟨req, props⟩ := rp
          simp only [hf] at h
          cases hh : handle_object_type g stx t props req ctx with
          | fuelOut => simp only [hh] at h; cases h
          | err e => simp only [hh] at h; cases h
          | ok q =>
            obtain ⟨sr, st3⟩ := q
            simp only [hh] at h
            simp only [Res.ok.injEq, Prod.mk.injEq, Option.some.injEq] at h
            obtain ⟨hsr, hst⟩ := h
            rw [← hst]
            rw [hsr] at hh
            exact handle_object_type_lookup g stx t props req ctx r st3
              (PyType.beq_refl t) hh

/-- When the inner resolver produces a Reference for any type, either the
type object is now cached under that Reference, or the state is unchanged
(the Reference came from the cache, possibly through the name branch of
_get_stored_reference). -/
theorem inner_lookup_or_unchanged (fuel : Nat) (env : Env) (st : St) (t : PyType)
    (targs : Option TArgs) (r : Reference) (st1 : St)
    (h : get_schema_by_type_inner fuel env st t targs = .ok (Sum.inr r, st1)) :
    lookupBy beqRKey st1.objectsReferences (Sum.inl t) = some r ∨ st1 = st := by
  cases fuel with
  | zero => rw [get_schema_by_type_inner] at h; cases h
  | succ g =>
    rw [get_schema_by_type_inner] at h
    cases hs : get_stored_reference g st t targs with
    | fuelOut => simp only [hs] at h; cases h
    | err e => simp only [hs] at h; cases h
    | ok o =>
      cases o with
      | some r0 =>
        simp only [hs] at h
        simp only [Res.ok.injEq, Prod.mk.injEq, Sum.inr.injEq] at h
        exact Or.inr h.2.symm
      | none =>
        simp only [hs] at h
        by_cases hch : can_handle_class_type env st t
        · rw [if_pos hch] at h
          exact Or.inl (get_schema_for_class_lookup g env st t r st1 (PyType.beq_refl t) h)
        · rw [if_neg hch] at h
          cases hsi : try_get_schema_for_simple_type t with
          | some s => simp only [hsi] at h; simp at h
          | none =>
            simp only [hsi] at h
            cases hit : try_get_schema_for_iterable g env st t targs with
            | fuelOut => simp only [hit] at h; cases h
            | err e => simp only [hit] at h; cases h
            | ok p =>
              obtain ⟨so, stx⟩ := p
              cases so with
              | some s => simp only [hit] at h; simp at h
              | none =>
                simp only [hit] at h
                cases t with
                | genericAlias o2 args2 =>
                  cases hgen : try_get_schema_for_generic g env stx
                      (.genericAlias o2 args2) o2 args2 targs with
                  | fuelOut => simp only [hgen] at h; cases h
                  | err e => simp only [hgen] at h; cases h
                  | ok q =>
                    obtain ⟨sro, st2⟩ := q
                    cases sro with
                    | none => simp only [hgen] at h; simp at h
                    | some sr =>
                      cases sr with
                      | inl s => simp only [hgen] at h; simp at h
                      | inr r0 =>
                        simp only [hgen] at h
                        simp only [Res.ok.injEq, Prod.mk.injEq, Sum.inr.injEq] at h
                        obtain ⟨hr, hst⟩ := h
                        rw [← hst, ← hr]
                        exact Or.inl (try_generic_lookup g env stx
                          (.genericAlias o2 args2) o2 args2 targs r0 st2 hgen)
                | union args2 => simp at h
                | str => simp [try_get_schema_for_enum] at h
                | int => simp [try_get_schema_for_enum] at h
                | float => simp [try_get_schema_for_enum] at h
                | bool => simp [try_get_schema_for_enum] at h
                | uuid => simp [try_get_schema_for_enum] at h
                | date => simp [try_get_schema_for_enum] at h
                | datetime => simp [try_get_schema_for_enum] at h
                | noneType => simp [try_get_schema_for_enum] at h
                | bareIter k => simp [try_get_schema_for_enum] at h
                | iterAlias k a => simp [try_get_schema_for_enum] at h
                | classRef nm => simp [try_get_schema_for_enum] at h
                | forwardRef s2 => simp [try_get_schema_for_enum] at h
                | typeVar nm => simp [try_get_schema_for_enum] at h
                | intEnum nm v => simp [try_get_schema_for_enum] at h
                | strEnum nm v => simp [try_get_schema_for_enum] at h

theorem containsKey_append {α : Type} (l1 l2 : List (String × α)) (k : String) :
    containsKey (l1 ++ l2) k = (containsKey l1 k || containsKey l2 k) := by
  induction l1 with
  | nil => simp [containsKey]
  | cons p rest ih =>
    obtain ⟨a, b⟩ := p
    simp [containsKey, ih, Bool.or_assoc]

theorem register_first (st : St) (s1 : Schema)
    (h1 : containsKey st.componentsSchemas "Foo" = false) :
    register_schema st s1 "Foo"
      = (⟨"#/components/schemas/Foo"⟩,
         { st with componentsSchemas := st.componentsSchemas ++ [("Foo", s1)] }) := by
  unfold register_schema
  simp only [h1, Bool.false_eq_true, if_false]
  rfl

theorem register_second (st : St) (s1 s2 : Schema)
    (h1 : containsKey st.componentsSchemas "Foo" = false)
    (h2 : containsKey st.componentsSchemas "Foo1" = false) :
    register_schema { st with componentsSchemas := st.componentsSchemas ++ [("Foo", s1)] }
      s2 "Foo"
      = (⟨"#/components/schemas/Foo1"⟩,
         { st with componentsSchemas :=
             st.componentsSchemas ++ [("Foo", s1), ("Foo1", s2)] }) := by
  unfold register_schema
  have hc : containsKey (st.componentsSchemas ++ [("Foo", s1)]) "Foo" = true := by
    simp [containsKey_append, containsKey, h1]
  simp only [hc, if_true]
  have hlen : (st.componentsSchemas ++ [("Foo", s1)]).length
      = st.componentsSchemas.length + 1 := by simp
  rw [hlen]
  rw [suffixSearch]
  have hc1 : containsKey (st.componentsSchemas ++ [("Foo", s1)]) ("Foo" ++ toString 1)
      = false := by
    have e : ("Foo" ++ toString 1 : String) = "Foo1" := rfl
    rw [e]
    simp [containsKey_append, containsKey, h2]
  simp only [hc1, Bool.false_eq_true, if_false]
  simp [List.append_assoc]
  exact ⟨rfl, rfl⟩

theorem register_third (st : St) (s1 s2 s3 : Schema)
    (h1 : containsKey st.componentsSchemas "Foo" = false)
    (h2 : containsKey st.componentsSchemas "Foo1" = false)
    (h3 : containsKey st.componentsSchemas "Foo2" = false) :
    register_schema
      { st with componentsSchemas := st.componentsSchemas ++ [("Foo", s1), ("Foo1", s2)] }
      s3 "Foo"
      = (⟨"#/components/schemas/Foo2"⟩,
         { st with componentsSchemas :=
             st.componentsSchemas ++ [("Foo", s1), ("Foo1", s2), ("Foo2", s3)] }) := by
  unfold register_schema
  have hc : containsKey (st.componentsSchemas ++ [("Foo", s1), ("Foo1", s2)]) "Foo"
      = true := by
    simp [containsKey_append, containsKey, h1]
  simp only [hc, if_true]
  have hlen : (st.componentsSchemas ++ [("Foo", s1), ("Foo1", s2)]).length
      = st.componentsSchemas.length + 1 + 1 := by simp
  rw [hlen]
  rw [suffixSearch]
  have hc1 : containsKey (st.componentsSchemas ++ [("Foo", s1), ("Foo1", s2)])
      ("Foo" ++ toString 1) = true := by
    have e : ("Foo" ++ toString 1 : String) = "Foo1" := rfl
    rw [e]
    simp [containsKey_append, containsKey, h2]
  simp only [hc1, if_true]
  rw [suffixSearch]
  have hc2 : containsKey (st.componentsSchemas ++ [("Foo", s1), ("Foo1", s2)])
      ("Foo" ++ toString (1 + 1)) = false := by
    have e : ("Foo" ++ toString (1 + 1) : String) = "Foo2" := rfl
    rw [e]
    simp [containsKey_append, containsKey, h3]
  simp only [hc2, Bool.false_eq_true, if_false]
  simp [List.append_assoc]
  exact ⟨rfl, rfl⟩

theorem status_map_id (l : List (String × ResponseDoc)) :
    l.map (fun kv => (response_status_to_str kv.1, kv.2)) = l := by
  have e : (fun kv : String × ResponseDoc => (response_status_to_str kv.1, kv.2)) = id :=
    funext (fun kv => rfl)
  rw [e, List.map_id]

theorem self_reference_fuel_out : ∀ fuel : Nat,
    get_schema_by_type fuel envNode st0 (.classRef "Node") none = .fuelOut ∧
    get_schema_by_type_inner fuel envNode st0 (.classRef "Node") none = .fuelOut ∧
    get_schema_for_class fuel envNode st0 (.classRef "Node") = .fuelOut ∧
    resolve_class_fields fuel envNode st0 (get_type_hints_of envNode (.classRef "Node"))
      (get_fields envNode (.classRef "Node")) [] [] = .fuelOut := by
  intro fuel
  induction fuel with
  | zero => exact ⟨rfl, rfl, rfl, rfl⟩
  | succ f ih =>
    obtain ⟨hA, hB, hC, hD⟩ := ih
    refine ⟨?_, ?_, ?_, ?_⟩
    · rw [get_schema_by_type]
      simp only [show get_stored_reference f st0 (.classRef "Node") none = .ok none
        from by cases f <;> rfl]
      simp only [show check_union (.classRef "Node")
        = Except.ok (false, .classRef "Node") from rfl]
      simp only [hB]
    · rw [get_schema_by_type_inner]
      simp only [show get_stored_reference f st0 (.classRef "Node") none = .ok none
        from by cases f <;> rfl]
      simp only [show can_handle_class_type envNode st0 (.classRef "Node") = true from rfl,
        if_true]
      exact hC
    · rw [get_schema_for_class]
      simp only [show (lookupBy PyType.beq st0.typesSchemas (.classRef "Node")).isSome
        = false from rfl, Bool.false_eq_true, if_false]
      simp only [hD]
    · simp only [show get_fields envNode (.classRef "Node")
        = [("next", .forwardRef "Node")] from rfl]
      simp only [show get_type_hints_of envNode (.classRef "Node")
        = [("next", .classRef "Node")] from rfl]
      rw [resolve_class_fields]
      simp only [show check_union (.forwardRef "Node")
        = Except.ok (false, .forwardRef "Node") from rfl]
      simp only [show (([("next", PyType.classRef "Node")] : List (String × PyType)).lookup
        "next") = some (.classRef "Node") from rfl]
      simp only [hA]

/-- Claim C1: the claim states that resolving an optional type returns the
inner schema with nullable set to true.  Evaluating the code at the
failing input Optional[int] (Union[int, None]) shows the opposite: the
guard of the nullable assignment in get_schema_by_type is written
"and not is_optional", so the integer schema of an optional comes back
with nullable still unset (None), while a plain (non-optional) integer
gets nullable assigned False.  This theorem records the actual behaviour
of the code at both inputs. -/
theorem C1_optional_nullable_evaluation :
    get_schema_by_type 5 [] st0 (.union [.int, .noneType]) none
      = .ok (Sum.inl (Schema.ofTypeFormat .integer .int64), st0)
    ∧ (Schema.ofTypeFormat .integer .int64).nullable = none
    ∧ get_schema_by_type 5 [] st0 .int none
      = .ok (Sum.inl ((Schema.ofTypeFormat .integer .int64).setNullable (some false)), st0) :=
  ⟨rfl, rfl, rfl⟩

/-- Claim C2 counterexample: resolving the self-referential record Node
(field next of declared type Node) from a fresh state does not produce a
self-referential Reference; at recursion budget 64 the resolution is
still recursing (every level re-enters the class resolution of Node
before Node has been registered). -/
theorem C2_counterexample :
    get_schema_by_type 64 envNode st0 (.classRef "Node") none = .fuelOut := rfl

/-- Claim C2 (amended): resolution of a record type with a field whose
declared type is the enclosing record itself does not terminate.
_get_schema_for_class registers the enclosing type only after all its
fields have been resolved, so the cached-reference lookup never catches
the recursive occurrence and the recursion consumes every finite
budget: for every fuel value the resolution of Node runs out of fuel. -/
theorem C2_self_reference_never_terminates :
    ∀ fuel : Nat, get_schema_by_type fuel envNode st0 (.classRef "Node") none = .fuelOut :=
  fun fuel => (self_reference_fuel_out fuel).1

/-- Claim C3: for every type resolved twice within one pass, both calls
return references comparing equal and no second schema is registered.
Part one: for any type that is not an optional wrapper (in particular any
record class, any parametrized generic instantiation, and anything with
an explicitly assigned schema), under any binding context, if resolution
produced a Reference then resolving the same type again from the
resulting state returns that exact Reference and leaves the state
unchanged.  Part two: the same for an optional wrapper (whose Reference
is the one cached for its unwrapped type; unions themselves are never
registered, which the not-cached hypothesis records).  Part three: the
name-plus-bindings cache branch of _get_stored_reference directly — when
the alias object is not a key but its context-substituted name is,
resolution returns the cached Reference for that name with no state
change and no new registration. -/
theorem C3_idempotent_reference_reuse :
    (∀ (fuel : Nat) (env : Env) (st st1 : St) (t : PyType) (targs : Option TArgs)
        (r : Reference),
      check_union t = .ok (false, t) →
      get_schema_by_type fuel env st t targs = .ok (Sum.inr r, st1) →
      get_schema_by_type fuel env st1 t targs = .ok (Sum.inr r, st1)) ∧
    (∀ (fuel : Nat) (env : Env) (st st1 : St) (args : List PyType) (c : PyType)
        (targs : Option TArgs) (r : Reference),
      check_union (.union args) = .ok (true, c) →
      lookupBy beqRKey st1.objectsReferences (Sum.inl (.union args)) = none →
      get_schema_by_type fuel env st (.union args) targs = .ok (Sum.inr r, st1) →
      get_schema_by_type fuel env st1 (.union args) targs = .ok (Sum.inr r, st1)) ∧
    (∀ (fuel : Nat) (env : Env) (st : St) (t : PyType) (a : String × PyType) (l : TArgs)
        (nm : String) (r : Reference),
      lookupBy beqRKey st.objectsReferences (Sum.inl t) = none →
      get_type_name fuel t (some (a :: l)) = .ok nm →
      lookupBy beqRKey st.objectsReferences (Sum.inr nm) = some r →
      get_schema_by_type (fuel + 1) env st t (some (a :: l)) = .ok (Sum.inr r, st)) := by
  refine ⟨?_, ?_, ?_⟩
  · intro fuel env st st1 t targs r hcu h
    cases fuel with
    | zero => rw [get_schema_by_type] at h; cases h
    | succ f =>
      have horig := h
      rw [get_schema_by_type] at h
      cases hs : get_stored_reference f st t targs with
      | fuelOut => simp only [hs] at h; cases h
      | err e => simp only [hs] at h; cases h
      | ok o =>
        cases o with
        | some r0 =>
          simp only [hs] at h
          simp only [Res.ok.injEq, Prod.mk.injEq, Sum.inr.injEq] at h
          obtain ⟨hr, hst⟩ := h
          rw [← hst, ← hr]
          rw [← hst, ← hr] at horig
          exact horig
        | none =>
          simp only [hs, hcu] at h
          cases hi : get_schema_by_type_inner f env st t targs with
          | fuelOut => simp only [hi] at h; cases h
          | err e => simp only [hi] at h; cases h
          | ok p =>
            obtain ⟨sr, stx⟩ := p
            cases sr with
            | inl s => simp only [hi] at h; simp at h
            | inr r0 =>
              simp only [hi] at h
              simp only [Res.ok.injEq, Prod.mk.injEq, Sum.inr.injEq] at h
              obtain ⟨hr, hst⟩ := h
              rcases inner_lookup_or_unchanged f env st t targs r0 stx hi with hkey | hunch
              · rw [← hst, ← hr]
                rw [get_schema_by_type]
                have hsr2 : get_stored_reference f stx t targs = .ok (some r0) := by
                  unfold get_stored_reference; rw [hkey]
                simp only [hsr2]
              · rw [← hst, ← hr]
                rw [hunch]
                rw [← hst, ← hr] at horig
                rw [hunch] at horig
                exact horig
  · intro fuel env st st1 args c targs r hcu hnc h
    cases fuel with
    | zero => rw [get_schema_by_type] at h; cases h
    | succ f =>
      have horig := h
      rw [get_schema_by_type] at h
      cases hs : get_stored_reference f st (.union args) targs with
      | fuelOut => simp only [hs] at h; cases h
      | err e => simp only [hs] at h; cases h
      | ok o =>
        cases o with
        | some r0 =>
          simp only [hs] at h
          simp only [Res.ok.injEq, Prod.mk.injEq, Sum.inr.injEq] at h
          obtain ⟨hr, hst⟩ := h
          rw [← hst, ← hr]
          rw [← hst, ← hr] at horig
          exact horig
        | none =>
          simp only [hs, hcu] at h
          cases hi : get_schema_by_type_inner f env st c targs with
          | fuelOut => simp only [hi] at h; cases h
          | err e => simp only [hi] at h; cases h
          | ok p =>
            obtain ⟨sr, stx⟩ := p
            cases sr with
            | inl s => simp only [hi] at h; simp at h
            | inr r0 =>
              simp only [hi] at h
              simp only [Res.ok.injEq, Prod.mk.injEq, Sum.inr.injEq] at h
              obtain ⟨hr, hst⟩ := h
              rcases inner_lookup_or_unchanged f env st c targs r0 stx hi with hkey | hunch
              · rw [← hst, ← hr]
                rw [← hst] at hnc
                rw [get_schema_by_type]
                have hsr2 : get_stored_reference f stx (.union args) targs = .ok none := by
                  unfold get_stored_reference
                  rw [hnc]
                  cases targs with
                  | none => rfl
                  | some l0 =>
                    cases l0 with
                    | nil => rfl
                    | cons a0 rest0 =>
                      exfalso
                      unfold get_stored_reference at hs
                      cases hso : lookupBy beqRKey st.objectsReferences
                          (Sum.inl (.union args)) with
                      | some r1 => rw [hso] at hs; simp at hs
                      | none =>
                        rw [hso] at hs
                        rcases get_type_name_union f (some (a0 :: rest0)) args with hg | hg <;>
                          simp only [hg] at hs <;> cases hs
                simp only [hsr2, hcu]
                cases f with
                | zero => rw [get_schema_by_type_inner] at hi; cases hi
                | succ g =>
                  have hin2 : get_schema_by_type_inner (g + 1) env stx c targs
                      = .ok (Sum.inr r0, stx) := by
                    rw [get_schema_by_type_inner]
                    have hst2 : get_stored_reference g stx c targs = .ok (some r0) := by
                      unfold get_stored_reference; rw [hkey]
                    simp only [hst2]
                  simp only [hin2]
              · rw [← hst, ← hr]
                rw [hunch]
                rw [← hst, ← hr] at horig
                rw [hunch] at horig
                exact horig
  · intro fuel env st t a l nm r hobj hname hhit
    rw [get_schema_by_type]
    have hsr : get_stored_reference fuel st t (some (a :: l)) = .ok (some r) := by
      unfold get_stored_reference
      simp only [hobj, hname, hhit]
    simp only [hsr]

/-- Claim C3 witness: part one applied to a registered generic
instantiation — Box[Item] resolved again from the state left by its first
resolution returns the same BoxOfItem Reference unchanged; part two
applied to Optional[Foo], whose Reference is the cached one of Foo; part
three applied to the unbound alias Ex[T] under the binding T to Foo, hit
through the stored name ExOfFoo. -/
theorem C3_idempotent_reference_reuse_witness :
    get_schema_by_type 20 env7 (stOf run7a) boxItem none
      = .ok (Sum.inr ⟨"#/components/schemas/BoxOfItem"⟩, stOf run7a) ∧
    get_schema_by_type 10 envFoo stFoo optFoo none = .ok (Sum.inr refFoo, stFoo) ∧
    get_schema_by_type 6 [] stEx tEx targsEx = .ok (Sum.inr refEx, stEx) :=
  ⟨C3_idempotent_reference_reuse.1 20 env7 st0 (stOf run7a) boxItem none
      ⟨"#/components/schemas/BoxOfItem"⟩ rfl rfl,
   C3_idempotent_reference_reuse.2.1 10 envFoo st0 stFoo [.classRef "Foo", .noneType]
      (.classRef "Foo") none refFoo rfl rfl rfl,
   C3_idempotent_reference_reuse.2.2 5 [] stEx tEx ("T", .classRef "Foo") []
      "ExOfFoo" refEx rfl rfl rfl⟩

/-- Claim C4: a union whose argument list lacks NoneType or has more than
two members is rejected by check_union, and get_schema_by_type surfaces
the UnsupportedUnionTypeException immediately (provided the union is not
already cached, which never happens in a real pass because unions are
never registered). -/
theorem C4_union_rejection (env : Env) (st : St) (args : List PyType) (fuel : Nat)
    (h1 : (args.contains PyType.noneType) = false ∨ 2 < args.length)
    (h2 : lookupBy beqRKey st.objectsReferences (Sum.inl (.union args)) = none) :
    get_schema_by_type (fuel + 1) env st (.union args) none
      = .err (.unsupportedUnionType (.union args)) := by
  rw [get_schema_by_type]
  have hsr : get_stored_reference fuel st (.union args) none = .ok none := by
    unfold get_stored_reference; rw [h2]
  simp only [hsr]
  have hcu : check_union (.union args) = .error (.unsupportedUnionType (.union args)) := by
    simp only [check_union]
    rw [if_pos h1]
  simp only [hcu]

/-- Claim C4 witness: the three-member union of int, str and NoneType is
rejected. -/
theorem C4_union_rejection_witness :
    get_schema_by_type 5 [] st0 (.union [.int, .str, .noneType]) none
      = .err (.unsupportedUnionType (.union [.int, .str, .noneType])) :=
  C4_union_rejection [] st0 [.int, .str, .noneType] 4 (Or.inr (by decide)) rfl

/-- Claim C5: registering three schemas in order under the proposed name
Foo, in a state where Foo, Foo1 and Foo2 are free, stores them under Foo,
Foo1 and Foo2 respectively: the first registrant keeps the bare name and
the later registrants get the incrementing numeric suffix. -/
theorem C5_collision_naming (st : St) (s1 s2 s3 : Schema)
    (h1 : containsKey st.componentsSchemas "Foo" = false)
    (h2 : containsKey st.componentsSchemas "Foo1" = false)
    (h3 : containsKey st.componentsSchemas "Foo2" = false) :
    (register_schema st s1 "Foo").1 = ⟨"#/components/schemas/Foo"⟩ ∧
    (register_schema (register_schema st s1 "Foo").2 s2 "Foo").1
      = ⟨"#/components/schemas/Foo1"⟩ ∧
    (register_schema (register_schema (register_schema st s1 "Foo").2 s2 "Foo").2
        s3 "Foo").1 = ⟨"#/components/schemas/Foo2"⟩ ∧
    (register_schema (register_schema (register_schema st s1 "Foo").2 s2 "Foo").2
        s3 "Foo").2.componentsSchemas
      = st.componentsSchemas ++ [("Foo", s1), ("Foo1", s2), ("Foo2", s3)] := by
  have e1 := register_first st s1 h1
  have e2 := register_second st s1 s2 h1 h2
  have e3 := register_third st s1 s2 s3 h1 h2 h3
  refine ⟨?_, ?_, ?_, ?_⟩ <;> simp only [e1, e2, e3]

/-- Claim C5 witness: three distinct schemas registered under Foo from
the fresh state land under Foo, Foo1 and Foo2. -/
theorem C5_collision_naming_witness :
    (register_schema st0 (Schema.ofType .string) "Foo").1
      = ⟨"#/components/schemas/Foo"⟩ ∧
    (register_schema (register_schema st0 (Schema.ofType .string) "Foo").2
        (Schema.ofType .integer) "Foo").1 = ⟨"#/components/schemas/Foo1"⟩ ∧
    (register_schema (register_schema (register_schema st0 (Schema.ofType .string) "Foo").2
        (Schema.ofType .integer) "Foo").2 (Schema.ofType .boolean) "Foo").1
      = ⟨"#/components/schemas/Foo2"⟩ ∧
    (register_schema (register_schema (register_schema st0 (Schema.ofType .string) "Foo").2
        (Schema.ofType .integer) "Foo").2 (Schema.ofType .boolean) "Foo").2.componentsSchemas
      = st0.componentsSchemas ++ [("Foo", Schema.ofType .string),
          ("Foo1", Schema.ofType .integer), ("Foo2", Schema.ofType .boolean)] :=
  C5_collision_naming st0 (Schema.ofType .string) (Schema.ofType .integer)
    (Schema.ofType .boolean) rfl rfl rfl

/-- Claim C6: response inference for a handler without explicit per-status
response documentation (responses override missing or empty).  A None
return annotation yields only the 204 entry (over empty common
responses); an Optional[str] annotation yields the 200 entry for str plus
the automatic 404 entry (404 option enabled in st0); a str annotation
yields only the 200 entry; a missing return annotation yields exactly the
process-wide common responses, over any state. -/
theorem C6_response_inference :
    (∀ (env : Env) (st : St) (fuel : Nat) (handler : Handler),
      st.commonResponses = [] →
      (handler.docs.bind (fun d => d.responses) = none ∨
       handler.docs.bind (fun d => d.responses) = some []) →
      handler.returnType = some none →
      get_responses (fuel + 1) env st handler = .ok ([("204", respDoc204)], st)) ∧
    (∀ handler : Handler,
      (handler.docs.bind (fun d => d.responses) = none ∨
       handler.docs.bind (fun d => d.responses) = some []) →
      handler.returnType = some (some (.union [.str, .noneType])) →
      get_responses 10 [] st0 handler
        = .ok ([("200", respDoc200Str), ("404", respDoc404)], st0)) ∧
    (∀ handler : Handler,
      (handler.docs.bind (fun d => d.responses) = none ∨
       handler.docs.bind (fun d => d.responses) = some []) →
      handler.returnType = some (some .str) →
      get_responses 10 [] st0 handler = .ok ([("200", respDoc200Str)], st0)) ∧
    (∀ (env : Env) (st : St) (fuel : Nat) (handler : Handler),
      (handler.docs.bind (fun d => d.responses) = none ∨
       handler.docs.bind (fun d => d.responses) = some []) →
      handler.returnType = none →
      get_responses (fuel + 1) env st handler = .ok (st.commonResponses, st)) := by
  refine ⟨?_, ?_, ?_, ?_⟩
  · intro env st fuel handler hcommon hf hrt
    rw [get_responses]
    rcases hf with hf | hf <;> simp only [hf, hcommon, hrt] <;> rfl
  · intro handler hf hrt
    rw [show (10 : Nat) = 9 + 1 from rfl, get_responses]
    rcases hf with hf | hf <;> simp only [hf, hrt] <;> rfl
  · intro handler hf hrt
    rw [show (10 : Nat) = 9 + 1 from rfl, get_responses]
    rcases hf with hf | hf <;> simp only [hf, hrt] <;> rfl
  · intro env st fuel handler hf hrt
    rw [get_responses]
    rcases hf with hf | hf <;> simp only [hf, hrt, status_map_id]

/-- Claim C6 witness: the four inference cases evaluated at concrete
handlers — return None, return Optional[str], return str, and no return
annotation over a state with one common response. -/
theorem C6_response_inference_witness :
    get_responses 4 [] st0 h204 = .ok ([("204", respDoc204)], st0) ∧
    get_responses 10 [] st0 hOptText
      = .ok ([("200", respDoc200Str), ("404", respDoc404)], st0) ∧
    get_responses 10 [] st0 hText = .ok ([("200", respDoc200Str)], st0) ∧
    get_responses 4 [] stCommon hNoAnn = .ok (stCommon.commonResponses, stCommon) :=
  ⟨C6_response_inference.1 [] st0 3 h204 rfl (Or.inl rfl) rfl,
   C6_response_inference.2.1 hOptText (Or.inl rfl) rfl,
   C6_response_inference.2.2.1 hText (Or.inl rfl) rfl,
   C6_response_inference.2.2.2 [] stCommon 3 hNoAnn (Or.inl rfl) rfl⟩

/-- Claim C7: the generic record Box bound to Item resolves to a
Reference named BoxOfItem, Box bound to Other to a Reference named
BoxOfOther; after both resolutions the components map holds both names;
the two references differ.  The naming scheme is also shown directly on
get_type_name: a two-argument instantiation joins the argument names with
And. -/
theorem C7_generic_instantiation_naming :
    srOf run7a = some (Sum.inr ⟨"#/components/schemas/BoxOfItem"⟩) ∧
    srOf run7b = some (Sum.inr ⟨"#/components/schemas/BoxOfOther"⟩) ∧
    containsKey (stOf run7b).componentsSchemas "BoxOfItem" = true ∧
    containsKey (stOf run7b).componentsSchemas "BoxOfOther" = true ∧
    (⟨"#/components/schemas/BoxOfItem"⟩ : Reference)
      ≠ ⟨"#/components/schemas/BoxOfOther"⟩ ∧
    get_type_name 5 boxItem none = .ok "BoxOfItem" ∧
    get_type_name 5 boxOther none = .ok "BoxOfOther" ∧
    get_type_name 5 (.genericAlias "Pair" [.classRef "Item", .classRef "Other"]) none
      = .ok "PairOfItemAndOther" :=
  ⟨rfl, rfl, rfl, rfl, by decide, rfl, rfl, rfl⟩

/-- Claim C8 counterexample: a request body with exactly one literal
example is not attached as a single inline example; get_request_body
always produces a named map — here the singleton map keyed sample, with
the media-type example field left empty. -/
theorem C8_counterexample :
    get_request_body 5 [] st0 hBodySingle
      = .ok (some (RequestBody.mk
          [("application/json",
            MediaType.mk (some (Sum.inl strSchemaNF)) none
              (some [("sample", Example.mk none none (some "v1"))]))]
          true none), st0) := rfl

/-- Claim C8 (amended): request-body literal examples are always attached
as a named map keyed by the provided names, even when exactly one example
is given; the exactly-one-inline-example shortcut and the automatic
naming of unnamed examples (example index) belong to response content
documentation, in _get_media_type_from_content_doc, not to the request
body.  Part one states the request-body named map in general; parts two
and three evaluate the response content behaviour: a single bare example
is inlined, two examples become a named map whose unnamed entry is
auto-named example 0. -/
theorem C8_examples_attachment :
    (∀ (env : Env) (st st1 : St) (fuel : Nat) (handler : Handler)
      (binders : List Binder) (bb : Binder) (bi : RequestBodyInfo) (sr : SR),
      handler.binders = some binders →
      get_body_binder binders = some bb →
      handler.docs.bind (fun d => d.requestBody) = some bi →
      bi.examples ≠ [] →
      get_schema_by_type fuel env st bb.expectedType none = .ok (sr, st1) →
      get_request_body (fuel + 1) env st handler
        = .ok (some (RequestBody.mk
            [(bb.contentType, MediaType.mk (some sr) none
              (some (bi.examples.map (fun kv => (kv.1, Example.mk none none (some kv.2))))))]
            bb.required bi.description), st1)) ∧
    get_media_type_from_content_doc 5 [] st0
        (ContentInfo.mk none [ExItem.raw "v1"] "application/json")
      = .ok (MediaType.mk none (some "v1") none, st0) ∧
    get_media_type_from_content_doc 5 [] st0
        (ContentInfo.mk none
          [ExItem.raw "v1", ExItem.rx ⟨"v2", some "custom", none, none⟩] "application/json")
      = .ok (MediaType.mk none none
          (some [("example 0", Example.mk none none (some "v1")),
                 ("custom", Example.mk none none (some "v2"))]), st0) := by
  refine ⟨?_, rfl, rfl⟩
  intro env st st1 fuel handler binders bb bi sr hb hbb hbi hne hres
  rw [get_request_body]
  simp only [hb, hbb, hbi]
  have hie : bi.examples.isEmpty = false := by
    cases hx : bi.examples with
    | nil => exact absurd hx hne
    | cons a as => rfl
  simp only [hie, Bool.false_eq_true, if_false, hres, Option.some_bind]

/-- Claim C8 witness: the general request-body part applied to the
handler with one literal example. -/
theorem C8_examples_attachment_witness :
    get_request_body 6 [] st0 hBodySingle
      = .ok (some (RequestBody.mk
          [("application/json",
            MediaType.mk (some (Sum.inl strSchemaNF)) none
              (some [("sample", Example.mk none none (some "v1"))]))]
          true none), st0) :=
  C8_examples_attachment.1 [] st0 st0 5 hBodySingle [bodyBinder1] bodyBinder1
    ⟨none, [("sample", "v1")]⟩ (Sum.inl strSchemaNF) rfl rfl rfl
    (List.cons_ne_nil _ _) rfl

/-- Claim C9: a parametrized generic record whose (first) field is
declared with an unresolved forward-reference string resolves to the
unconstrained empty schema instead of raising: the generic path emits one
warning, registers nothing, and the resolver falls through to Schema()
(whose nullable is then set to False by the outer resolver). -/
theorem C9_forward_reference_in_generic (env : Env) (st : St) (o : String)
    (cls : ClassDef) (args : List PyType) (fname s : String)
    (rest : List (String × PyType)) (fuel : Nat)
    (henv : env.lookup o = some cls)
    (hfields : cls.fields = (fname, .forwardRef s) :: rest)
    (hdc : cls.isDataclass = true)
    (href : lookupBy beqRKey st.objectsReferences (Sum.inl (.genericAlias o args)) = none)
    (hts : lookupBy PyType.beq st.typesSchemas (.genericAlias o args) = none) :
    get_schema_by_type (fuel + 4) env st (.genericAlias o args) none
      = .ok (Sum.inl (Schema.empty.setNullable (some false)),
          { st with warnings := st.warnings
              ++ [Warn.forwardRefInGeneric (.genericAlias o args) fname] }) := by
  have hsr : ∀ g : Nat, get_stored_reference g st (.genericAlias o args) none
      = .ok none := by
    intro g; unfold get_stored_reference; rw [href]
  have hch : can_handle_class_type env st (.genericAlias o args) = false := by
    unfold can_handle_class_type
    rw [hts]
    rfl
  rw [show fuel + 4 = (fuel + 3) + 1 from rfl, get_schema_by_type]
  simp only [hsr]
  simp only [show check_union (.genericAlias o args)
    = Except.ok (false, .genericAlias o args) from rfl]
  rw [show fuel + 3 = (fuel + 2) + 1 from rfl, get_schema_by_type_inner]
  simp only [hsr, hch, Bool.false_eq_true, if_false]
  simp only [show try_get_schema_for_simple_type (.genericAlias o args) = none from rfl]
  have hit : try_get_schema_for_iterable (fuel + 2) env st (.genericAlias o args) none
      = .ok (none, st) := rfl
  simp only [hit]
  rw [show fuel + 2 = (fuel + 1) + 1 from rfl, try_get_schema_for_generic]
  simp only [henv]
  have hgf : get_fields env (.classRef o) = (fname, .forwardRef s) :: rest := by
    simp [get_fields, henv, hdc, hfields]
  simp only [hgf]
  rw [resolve_generic_fields]
  simp only [show check_union (.forwardRef s) = Except.ok (false, .forwardRef s) from rfl]
  simp

/-- Claim C9 witness: the generic alias BoxF[int] over a dataclass with a
forward-reference field resolves to the empty schema and records exactly
one warning. -/
theorem C9_forward_reference_in_generic_witness :
    get_schema_by_type 4 envBoxFwd st0 (.genericAlias "BoxF" [.int]) none
      = .ok (Sum.inl (Schema.empty.setNullable (some false)),
          { st0 with warnings :=
              [Warn.forwardRefInGeneric (.genericAlias "BoxF" [.int]) "item"] }) :=
  C9_forward_reference_in_generic envBoxFwd st0 "BoxF" boxFCls [.int] "item" "X" [] 0
    rfl rfl rfl rfl rfl

/-- Claim C10: a handler object without a binders attribute documents no
parameters and no request body: both get_parameters and get_request_body
return None without touching the state and without raising. -/
theorem C10_missing_binders (env : Env) (st : St) (fuel : Nat) (handler : Handler)
    (hb : handler.binders = none) :
    get_parameters (fuel + 1) env st handler = .ok (none, st) ∧
    get_request_body (fuel + 1) env st handler = .ok (none, st) := by
  constructor
  · rw [get_parameters]; simp only [hb]
  · rw [get_request_body]; simp only [hb]

/-- Claim C10 witness: both functions return None on a handler without
binders. -/
theorem C10_missing_binders_witness :
    get_parameters 4 [] st0 hPlain = .ok (none, st0) ∧
    get_request_body 4 [] st0 hPlain = .ok (none, st0) :=
  C10_missing_binders [] st0 3 hPlain rfl

end BS
